import Mathlib

/-!
Verification of the AMDGPU ASIC classification and capability table
(`src/amdgpu/asic.rs`).  The Rust enum `ASIC_NAME` is a fieldless
`#[repr(u32)]` enum whose derived `PartialOrd` compares discriminants,
i.e. declaration order starting from `CHIP_UNKNOWN = 0`; we mirror it as
an inductive type together with an explicit `rank` function giving the
discriminant of each constructor, and order the type by `rank`.
-/

set_option maxHeartbeats 4000000
set_option maxRecDepth 100000

/-- Mirrors the Rust enum `ASIC_NAME` (src/amdgpu/asic.rs), in declaration
order. -/
inductive ASIC_NAME where
  | CHIP_UNKNOWN
  | CHIP_R300
  | CHIP_R350
  | CHIP_RV350
  | CHIP_RV370
  | CHIP_RV380
  | CHIP_RS400
  | CHIP_RC410
  | CHIP_RS480
  | CHIP_R420
  | CHIP_R423
  | CHIP_R430
  | CHIP_R480
  | CHIP_R481
  | CHIP_RV410
  | CHIP_RS600
  | CHIP_RS690
  | CHIP_RS740
  | CHIP_RV515
  | CHIP_R520
  | CHIP_RV530
  | CHIP_R580
  | CHIP_RV560
  | CHIP_RV570
  | CHIP_R600
  | CHIP_RV610
  | CHIP_RV630
  | CHIP_RV670
  | CHIP_RV620
  | CHIP_RV635
  | CHIP_RS780
  | CHIP_RS880
  | CHIP_RV770
  | CHIP_RV730
  | CHIP_RV710
  | CHIP_RV740
  | CHIP_CEDAR
  | CHIP_REDWOOD
  | CHIP_JUNIPER
  | CHIP_CYPRESS
  | CHIP_HEMLOCK
  | CHIP_PALM
  | CHIP_SUMO
  | CHIP_SUMO2
  | CHIP_BARTS
  | CHIP_TURKS
  | CHIP_CAICOS
  | CHIP_CAYMAN
  | CHIP_ARUBA
  | CHIP_TAHITI
  | CHIP_PITCAIRN
  | CHIP_VERDE
  | CHIP_OLAND
  | CHIP_HAINAN
  | CHIP_BONAIRE
  | CHIP_LIVERPOOL
  | CHIP_GLADIUS
  | CHIP_KAVERI
  | CHIP_KABINI
  | CHIP_HAWAII
  | CHIP_TONGA
  | CHIP_ICELAND
  | CHIP_CARRIZO
  | CHIP_FIJI
  | CHIP_STONEY
  | CHIP_POLARIS10
  | CHIP_POLARIS11
  | CHIP_POLARIS12
  | CHIP_VEGAM
  | CHIP_VEGA10
  | CHIP_VEGA12
  | CHIP_VEGA20
  | CHIP_RAVEN
  | CHIP_RAVEN2
  | CHIP_RENOIR
  | CHIP_ARCTURUS
  | CHIP_ALDEBARAN
  | CHIP_GFX940
  | CHIP_NAVI10
  | CHIP_NAVI12
  | CHIP_NAVI14
  | CHIP_GFX1013
  | CHIP_NAVI21
  | CHIP_NAVI22
  | CHIP_VANGOGH
  | CHIP_NAVI23
  | CHIP_NAVI24
  | CHIP_REMBRANDT
  | CHIP_GFX1036
  | CHIP_GFX1100
  | CHIP_GFX1101
  | CHIP_GFX1102
  | CHIP_GFX1103_R1
  | CHIP_GFX1103_R2
  | CHIP_GFX1103_R1X
  | CHIP_GFX1103_R2X
  | CHIP_GFX1150
  | CHIP_GFX1151
  | CHIP_GFX1152
  | CHIP_GFX1153
  | CHIP_GFX1200
  | CHIP_GFX1201
  deriving DecidableEq, Fintype

/-- The `#[repr(u32)]` discriminant of each `ASIC_NAME` constructor:
`CHIP_UNKNOWN = 0` and each following constructor is one larger, exactly as
Rust assigns discriminants.  The derived Rust `PartialOrd` compares these
discriminants. -/
def ASIC_NAME.rank : ASIC_NAME → Nat
  | .CHIP_UNKNOWN => 0
  | .CHIP_R300 => 1
  | .CHIP_R350 => 2
  | .CHIP_RV350 => 3
  | .CHIP_RV370 => 4
  | .CHIP_RV380 => 5
  | .CHIP_RS400 => 6
  | .CHIP_RC410 => 7
  | .CHIP_RS480 => 8
  | .CHIP_R420 => 9
  | .CHIP_R423 => 10
  | .CHIP_R430 => 11
  | .CHIP_R480 => 12
  | .CHIP_R481 => 13
  | .CHIP_RV410 => 14
  | .CHIP_RS600 => 15
  | .CHIP_RS690 => 16
  | .CHIP_RS740 => 17
  | .CHIP_RV515 => 18
  | .CHIP_R520 => 19
  | .CHIP_RV530 => 20
  | .CHIP_R580 => 21
  | .CHIP_RV560 => 22
  | .CHIP_RV570 => 23
  | .CHIP_R600 => 24
  | .CHIP_RV610 => 25
  | .CHIP_RV630 => 26
  | .CHIP_RV670 => 27
  | .CHIP_RV620 => 28
  | .CHIP_RV635 => 29
  | .CHIP_RS780 => 30
  | .CHIP_RS880 => 31
  | .CHIP_RV770 => 32
  | .CHIP_RV730 => 33
  | .CHIP_RV710 => 34
  | .CHIP_RV740 => 35
  | .CHIP_CEDAR => 36
  | .CHIP_REDWOOD => 37
  | .CHIP_JUNIPER => 38
  | .CHIP_CYPRESS => 39
  | .CHIP_HEMLOCK => 40
  | .CHIP_PALM => 41
  | .CHIP_SUMO => 42
  | .CHIP_SUMO2 => 43
  | .CHIP_BARTS => 44
  | .CHIP_TURKS => 45
  | .CHIP_CAICOS => 46
  | .CHIP_CAYMAN => 47
  | .CHIP_ARUBA => 48
  | .CHIP_TAHITI => 49
  | .CHIP_PITCAIRN => 50
  | .CHIP_VERDE => 51
  | .CHIP_OLAND => 52
  | .CHIP_HAINAN => 53
  | .CHIP_BONAIRE => 54
  | .CHIP_LIVERPOOL => 55
  | .CHIP_GLADIUS => 56
  | .CHIP_KAVERI => 57
  | .CHIP_KABINI => 58
  | .CHIP_HAWAII => 59
  | .CHIP_TONGA => 60
  | .CHIP_ICELAND => 61
  | .CHIP_CARRIZO => 62
  | .CHIP_FIJI => 63
  | .CHIP_STONEY => 64
  | .CHIP_POLARIS10 => 65
  | .CHIP_POLARIS11 => 66
  | .CHIP_POLARIS12 => 67
  | .CHIP_VEGAM => 68
  | .CHIP_VEGA10 => 69
  | .CHIP_VEGA12 => 70
  | .CHIP_VEGA20 => 71
  | .CHIP_RAVEN => 72
  | .CHIP_RAVEN2 => 73
  | .CHIP_RENOIR => 74
  | .CHIP_ARCTURUS => 75
  | .CHIP_ALDEBARAN => 76
  | .CHIP_GFX940 => 77
  | .CHIP_NAVI10 => 78
  | .CHIP_NAVI12 => 79
  | .CHIP_NAVI14 => 80
  | .CHIP_GFX1013 => 81
  | .CHIP_NAVI21 => 82
  | .CHIP_NAVI22 => 83
  | .CHIP_VANGOGH => 84
  | .CHIP_NAVI23 => 85
  | .CHIP_NAVI24 => 86
  | .CHIP_REMBRANDT => 87
  | .CHIP_GFX1036 => 88
  | .CHIP_GFX1100 => 89
  | .CHIP_GFX1101 => 90
  | .CHIP_GFX1102 => 91
  | .CHIP_GFX1103_R1 => 92
  | .CHIP_GFX1103_R2 => 93
  | .CHIP_GFX1103_R1X => 94
  | .CHIP_GFX1103_R2X => 95
  | .CHIP_GFX1150 => 96
  | .CHIP_GFX1151 => 97
  | .CHIP_GFX1152 => 98
  | .CHIP_GFX1153 => 99
  | .CHIP_GFX1200 => 100
  | .CHIP_GFX1201 => 101

instance : LE ASIC_NAME := ⟨fun a b => a.rank ≤ b.rank⟩

instance : LT ASIC_NAME := ⟨fun a b => a.rank < b.rank⟩

instance (a b : ASIC_NAME) : Decidable (a ≤ b) :=
  inferInstanceAs (Decidable (a.rank ≤ b.rank))

instance (a b : ASIC_NAME) : Decidable (a < b) :=
  inferInstanceAs (Decidable (a.rank < b.rank))

theorem ASIC_NAME.le_def (a b : ASIC_NAME) : a ≤ b ↔ a.rank ≤ b.rank := Iff.rfl

theorem ASIC_NAME.lt_def (a b : ASIC_NAME) : a < b ↔ a.rank < b.rank := Iff.rfl

/-- Modelled from the spec: **ChipFamily**, the "enumeration of
driver-reported silicon families" (spec section 3) supplied by the caller.
The declaration of the Rust `FAMILY_NAME` enum is not among the provided
sources (asic.rs only imports it); its members here are the families matched
by `ASIC_NAME::get`, plus `UNKNOWN` and `CZ`, which reach that function's
wildcard arm. -/
inductive FAMILY_NAME where
  | UNKNOWN
  | SI
  | CI
  | KV
  | VI
  | CZ
  | AI
  | RV
  | NV
  | VGH
  | GC_11_0_0
  | YC
  | GC_11_0_1
  | GC_10_3_6
  | GC_10_3_7
  | GC_11_5_0
  | GC_12_0_0
  deriving DecidableEq, Fintype

/-- Mirrors `ASIC_NAME::get` (src/amdgpu/asic.rs lines 163-269).  Rust
range patterns `a..b` are half-open (`a ≤ rev < b`); or-patterns become
disjunctions; the fallthrough arms give `CHIP_UNKNOWN`.  The Rust argument
has type `u32`; we take a `Nat`. -/
def ASIC_NAME.get (family : FAMILY_NAME) (rev : Nat) : ASIC_NAME :=
  match family with
  | .SI =>
    if 0x05 ≤ rev ∧ rev < 0x14 then .CHIP_TAHITI
    else if 0x15 ≤ rev ∧ rev < 0x28 then .CHIP_PITCAIRN
    else if 0x29 ≤ rev ∧ rev < 0x3C then .CHIP_VERDE
    else if 0x3C ≤ rev ∧ rev < 0x46 then .CHIP_OLAND
    else if 0x46 ≤ rev ∧ rev < 0xFF then .CHIP_HAINAN
    else .CHIP_UNKNOWN
  | .CI =>
    if 0x14 ≤ rev ∧ rev < 0x28 then .CHIP_BONAIRE
    else if 0x28 ≤ rev ∧ rev < 0x3C then .CHIP_HAWAII
    else .CHIP_UNKNOWN
  | .KV =>
    if (0x01 ≤ rev ∧ rev < 0x41) ∨ (0x41 ≤ rev ∧ rev < 0x61) then .CHIP_KAVERI
    else if (0x61 ≤ rev ∧ rev < 0x71) ∨ (0x61 ≤ rev ∧ rev < 0x71) then .CHIP_LIVERPOOL
    else if (0x71 ≤ rev ∧ rev < 0x81) ∨ (0x71 ≤ rev ∧ rev < 0x81) then .CHIP_GLADIUS
    else if (0x81 ≤ rev ∧ rev < 0xA1) ∨ (0xA1 ≤ rev ∧ rev < 0xFF) then .CHIP_KABINI
    else .CHIP_UNKNOWN
  | .VI =>
    if 0x01 ≤ rev ∧ rev < 0x14 then .CHIP_ICELAND
    else if 0x14 ≤ rev ∧ rev < 0x28 then .CHIP_TONGA
    else if 0x3C ≤ rev ∧ rev < 0x50 then .CHIP_FIJI
    else if 0x50 ≤ rev ∧ rev < 0x5A then .CHIP_POLARIS10
    else if 0x5A ≤ rev ∧ rev < 0x64 then .CHIP_POLARIS11
    else if 0x64 ≤ rev ∧ rev < 0x6E then .CHIP_POLARIS12
    else if 0x6E ≤ rev ∧ rev < 0xFF then .CHIP_VEGAM
    else .CHIP_UNKNOWN
  | .AI =>
    if 0x01 ≤ rev ∧ rev < 0x14 then .CHIP_VEGA10
    else if 0x14 ≤ rev ∧ rev < 0x28 then .CHIP_VEGA12
    else if 0x28 ≤ rev ∧ rev < 0x32 then .CHIP_VEGA20
    else if 0x32 ≤ rev ∧ rev < 0x3C then .CHIP_ARCTURUS
    else if 0x3C ≤ rev ∧ rev < 0x46 then .CHIP_ALDEBARAN
    else if 0x46 ≤ rev ∧ rev < 0xFF then .CHIP_GFX940
    else .CHIP_UNKNOWN
  | .RV =>
    if 0x01 ≤ rev ∧ rev < 0x81 then .CHIP_RAVEN
    else if 0x81 ≤ rev ∧ rev < 0x90 then .CHIP_RAVEN2
    else if 0x91 ≤ rev ∧ rev < 0xFF then .CHIP_RENOIR
    else .CHIP_UNKNOWN
  | .NV =>
    if 0x01 ≤ rev ∧ rev < 0x0A then .CHIP_NAVI10
    else if 0x0A ≤ rev ∧ rev < 0x14 then .CHIP_NAVI12
    else if 0x14 ≤ rev ∧ rev < 0x28 then .CHIP_NAVI14
    else if 0x28 ≤ rev ∧ rev < 0x32 then .CHIP_NAVI21
    else if 0x32 ≤ rev ∧ rev < 0x3C then .CHIP_NAVI22
    else if 0x3C ≤ rev ∧ rev < 0x46 then .CHIP_NAVI23
    else if 0x46 ≤ rev ∧ rev < 0x50 then .CHIP_NAVI24
    else if rev = 0x84 then .CHIP_GFX1013
    else .CHIP_UNKNOWN
  | .VGH => .CHIP_VANGOGH
  | .GC_11_0_0 =>
    if 0x01 ≤ rev ∧ rev < 0x10 then .CHIP_GFX1100
    else if 0x10 ≤ rev ∧ rev < 0x20 then .CHIP_GFX1102
    else if 0x20 ≤ rev ∧ rev < 0xFF then .CHIP_GFX1101
    else .CHIP_UNKNOWN
  | .YC => .CHIP_REMBRANDT
  | .GC_11_0_1 =>
    if 0x01 ≤ rev ∧ rev < 0x80 then .CHIP_GFX1103_R1
    else if 0x80 ≤ rev ∧ rev < 0xC0 then .CHIP_GFX1103_R2
    else if 0xC0 ≤ rev ∧ rev < 0xF0 then .CHIP_GFX1103_R1X
    else if 0xF0 ≤ rev ∧ rev < 0xFF then .CHIP_GFX1103_R2X
    else .CHIP_UNKNOWN
  | .GC_10_3_6 => .CHIP_GFX1036
  | .GC_10_3_7 => .CHIP_GFX1036
  | .GC_11_5_0 =>
    if 0x01 ≤ rev ∧ rev < 0x40 then .CHIP_GFX1150
    else if 0x40 ≤ rev ∧ rev < 0x50 then .CHIP_GFX1152
    else if 0x50 ≤ rev ∧ rev < 0x80 then .CHIP_GFX1153
    else if 0xC0 ≤ rev ∧ rev < 0xFF then .CHIP_GFX1151
    else .CHIP_UNKNOWN
  | .GC_12_0_0 =>
    if 0x40 ≤ rev ∧ rev < 0x50 then .CHIP_GFX1200
    else if 0x50 ≤ rev ∧ rev < 0xFF then .CHIP_GFX1201
    else .CHIP_UNKNOWN
  | _ => .CHIP_UNKNOWN

/-- Mirrors `ASIC_NAME::has_rbplus` (asic.rs lines 277-279). -/
def ASIC_NAME.has_rbplus (v : ASIC_NAME) : Bool :=
  decide (v = .CHIP_STONEY ∨ .CHIP_VEGA10 ≤ v)

/-- The parenthesized second conjunct of `ASIC_NAME::rbplus_allowed`
(asic.rs lines 284-289): the allow-list stage of the RB+ gate. -/
def ASIC_NAME.rbplus_allowlist (v : ASIC_NAME) : Bool :=
  decide (v = .CHIP_STONEY ∨ v = .CHIP_VEGA12 ∨ v = .CHIP_RAVEN
    ∨ v = .CHIP_RAVEN2 ∨ v = .CHIP_RENOIR ∨ .CHIP_NAVI21 ≤ v)

/-- Mirrors `ASIC_NAME::rbplus_allowed` (asic.rs lines 282-290):
hardware presence, then the allow-list. -/
def ASIC_NAME.rbplus_allowed (v : ASIC_NAME) : Bool :=
  v.has_rbplus && v.rbplus_allowlist

/-- Mirrors `ASIC_NAME::has_packed_math_16bit` (asic.rs lines 293-295). -/
def ASIC_NAME.has_packed_math_16bit (v : ASIC_NAME) : Bool :=
  decide (.CHIP_VEGA10 ≤ v)

/-- Mirrors `ASIC_NAME::has_accelerated_dot_product` (asic.rs 298-303). -/
def ASIC_NAME.has_accelerated_dot_product (v : ASIC_NAME) : Bool :=
  decide (v = .CHIP_ARCTURUS ∨ v = .CHIP_ALDEBARAN ∨ v = .CHIP_VEGA20
    ∨ .CHIP_NAVI12 ≤ v)

/-- Mirrors `ASIC_NAME::max_wave64_per_simd` (asic.rs lines 305-315). -/
def ASIC_NAME.max_wave64_per_simd (v : ASIC_NAME) : Nat :=
  if .CHIP_NAVI21 ≤ v then 16
  else if .CHIP_NAVI10 ≤ v then 20
  else if .CHIP_POLARIS10 ≤ v ∧ v ≤ .CHIP_VEGAM then 8
  else 10

/-- Mirrors `ASIC_NAME::num_simd_per_cu` (asic.rs lines 318-324). -/
def ASIC_NAME.num_simd_per_cu (v : ASIC_NAME) : Nat :=
  if .CHIP_NAVI10 ≤ v then 2 else 4

/-- Mirrors `ASIC_NAME::cu_group` (asic.rs lines 326-332). -/
def ASIC_NAME.cu_group (v : ASIC_NAME) : Nat :=
  if .CHIP_NAVI10 ≤ v then 2 else 1

/-- Mirrors `ASIC_NAME::l1_cache_size` (asic.rs lines 335-341). -/
def ASIC_NAME.l1_cache_size (v : ASIC_NAME) : Nat :=
  if .CHIP_GFX1100 ≤ v then 32 * 1024 else 16 * 1024

/-- Mirrors `ASIC_NAME::gl1_cache_size` (asic.rs lines 344-354). -/
def ASIC_NAME.gl1_cache_size (v : ASIC_NAME) : Nat :=
  if .CHIP_GFX1200 ≤ v then 0
  else if .CHIP_GFX1100 ≤ v then 256 * 1024
  else if .CHIP_NAVI10 ≤ v then 128 * 1024
  else 0

/-- Mirrors `ASIC_NAME::l2_cache_size_per_block` (asic.rs lines 357-382). -/
def ASIC_NAME.l2_cache_size_per_block (v : ASIC_NAME) : Nat :=
  match v with
  | .CHIP_TAHITI | .CHIP_PITCAIRN | .CHIP_OLAND | .CHIP_HAWAII
  | .CHIP_KABINI | .CHIP_TONGA | .CHIP_STONEY | .CHIP_RAVEN2 => 64 * 1024
  | .CHIP_VERDE | .CHIP_HAINAN | .CHIP_BONAIRE | .CHIP_GLADIUS
  | .CHIP_LIVERPOOL | .CHIP_KAVERI | .CHIP_ICELAND | .CHIP_CARRIZO
  | .CHIP_FIJI | .CHIP_POLARIS12 | .CHIP_VEGAM => 128 * 1024
  | .CHIP_REMBRANDT | .CHIP_GFX1201 => 512 * 1024
  | _ => 256 * 1024

/-- Mirrors `ASIC_NAME::l2_cache_line_size` (asic.rs lines 385-393). -/
def ASIC_NAME.l2_cache_line_size (v : ASIC_NAME) : Nat :=
  if .CHIP_GFX1200 ≤ v then 256
  else if .CHIP_NAVI10 ≤ v ∨ v = .CHIP_ALDEBARAN then 128
  else 64

/-- Mirrors `ASIC_NAME::l3_cache_size_mb_per_channel` (asic.rs 396-410). -/
def ASIC_NAME.l3_cache_size_mb_per_channel (v : ASIC_NAME) : Nat :=
  match v with
  | .CHIP_NAVI21 | .CHIP_NAVI22 => 8
  | .CHIP_NAVI23 | .CHIP_NAVI24 | .CHIP_GFX1100 | .CHIP_GFX1101
  | .CHIP_GFX1102 | .CHIP_GFX1200 | .CHIP_GFX1201 => 4
  | .CHIP_GFX1151 => 2
  | _ => 0

/-- Mirrors `ASIC_NAME::get_llvm_processor_name` (asic.rs lines 413-457).
The Rust `llvm_major_ver` argument has type `usize`; we take a `Nat`. -/
def ASIC_NAME.get_llvm_processor_name (v : ASIC_NAME) (llvm_major_ver : Nat) : String :=
  match v with
  | .CHIP_TAHITI => "tahiti"
  | .CHIP_PITCAIRN => "pitcairn"
  | .CHIP_VERDE => "verde"
  | .CHIP_OLAND => "oland"
  | .CHIP_HAINAN => "hainan"
  | .CHIP_BONAIRE => "bonaire"
  | .CHIP_LIVERPOOL => "liverpool"
  | .CHIP_GLADIUS => "gladius"
  | .CHIP_KABINI => "kabini"
  | .CHIP_KAVERI => "kaveri"
  | .CHIP_HAWAII => "hawaii"
  | .CHIP_TONGA => "tonga"
  | .CHIP_ICELAND => "iceland"
  | .CHIP_CARRIZO => "carrizo"
  | .CHIP_FIJI => "fiji"
  | .CHIP_STONEY => "stoney"
  | .CHIP_POLARIS10 => "polaris10"
  | .CHIP_POLARIS11 | .CHIP_POLARIS12 | .CHIP_VEGAM => "polaris11"
  | .CHIP_VEGA10 => "gfx900"
  | .CHIP_RAVEN => "gfx902"
  | .CHIP_VEGA12 => "gfx904"
  | .CHIP_VEGA20 => "gfx906"
  | .CHIP_RAVEN2 | .CHIP_RENOIR => "gfx909"
  | .CHIP_ARCTURUS => "gfx908"
  | .CHIP_ALDEBARAN => "gfx90a"
  | .CHIP_NAVI10 => "gfx1010"
  | .CHIP_NAVI12 => "gfx1011"
  | .CHIP_NAVI14 => "gfx1012"
  | .CHIP_GFX1013 => "gfx1013"
  | .CHIP_NAVI21 => "gfx1030"
  | .CHIP_NAVI22 => if 12 ≤ llvm_major_ver then "gfx1031" else "gfx1030"
  | .CHIP_NAVI23 => if 12 ≤ llvm_major_ver then "gfx1032" else "gfx1030"
  | .CHIP_VANGOGH => if 12 ≤ llvm_major_ver then "gfx1033" else "gfx1030"
  | .CHIP_NAVI24 => if 13 ≤ llvm_major_ver then "gfx1034" else "gfx1030"
  | .CHIP_REMBRANDT => if 13 ≤ llvm_major_ver then "gfx1035" else "gfx1030"
  | .CHIP_GFX1036 => "gfx1030"
  | .CHIP_GFX1100 => "gfx1100"
  | .CHIP_GFX1101 => "gfx1101"
  | .CHIP_GFX1102 => "gfx1102"
  | .CHIP_GFX1103_R1 | .CHIP_GFX1103_R2 => "gfx1103"
  | _ => ""

/-- Mirrors `ASIC_NAME::get_gfx_target_name` (asic.rs lines 461-509). -/
def ASIC_NAME.get_gfx_target_name (v : ASIC_NAME) : String :=
  match v with
  | .CHIP_TAHITI => "gfx600"
  | .CHIP_PITCAIRN | .CHIP_VERDE => "gfx601"
  | .CHIP_OLAND | .CHIP_HAINAN => "gfx602"
  | .CHIP_BONAIRE => "gfx704"
  | .CHIP_LIVERPOOL => "gfx704"
  | .CHIP_GLADIUS => "gfx704"
  | .CHIP_KABINI => "gfx703"
  | .CHIP_KAVERI => "gfx700"
  | .CHIP_HAWAII => "gfx701"
  | .CHIP_TONGA | .CHIP_ICELAND => "gfx802"
  | .CHIP_CARRIZO => "gfx801"
  | .CHIP_FIJI => "gfx803"
  | .CHIP_STONEY => "gfx810"
  | .CHIP_POLARIS10 | .CHIP_POLARIS11 | .CHIP_POLARIS12 | .CHIP_VEGAM => "gfx803"
  | .CHIP_VEGA10 => "gfx900"
  | .CHIP_RAVEN => "gfx902"
  | .CHIP_VEGA12 => "gfx904"
  | .CHIP_VEGA20 => "gfx906"
  | .CHIP_RAVEN2 | .CHIP_RENOIR => "gfx909"
  | .CHIP_ARCTURUS => "gfx908"
  | .CHIP_ALDEBARAN => "gfx90a"
  | .CHIP_NAVI10 => "gfx1010"
  | .CHIP_NAVI12 => "gfx1011"
  | .CHIP_NAVI14 => "gfx1012"
  | .CHIP_GFX1013 => "gfx1013"
  | .CHIP_NAVI21 => "gfx1030"
  | .CHIP_NAVI22 => "gfx1031"
  | .CHIP_NAVI23 => "gfx1032"
  | .CHIP_VANGOGH => "gfx1033"
  | .CHIP_NAVI24 => "gfx1034"
  | .CHIP_REMBRANDT => "gfx1035"
  | .CHIP_GFX1036 => "gfx1030"
  | .CHIP_GFX1100 => "gfx1100"
  | .CHIP_GFX1101 => "gfx1101"
  | .CHIP_GFX1102 => "gfx1102"
  | .CHIP_GFX1103_R1 | .CHIP_GFX1103_R2 => "gfx1103"
  | _ => ""

/-- Whether `rev` lies in one of the revision intervals listed for `family`
in `ASIC_NAME::get` (the non-wildcard arms; the families whose arm is a
single unconditional result cover every revision). -/
def coveredByListedInterval (family : FAMILY_NAME) (rev : Nat) : Bool :=
  match family with
  | .SI => decide ((0x05 ≤ rev ∧ rev < 0x14) ∨ (0x15 ≤ rev ∧ rev < 0x28)
      ∨ (0x29 ≤ rev ∧ rev < 0x3C) ∨ (0x3C ≤ rev ∧ rev < 0x46)
      ∨ (0x46 ≤ rev ∧ rev < 0xFF))
  | .CI => decide ((0x14 ≤ rev ∧ rev < 0x28) ∨ (0x28 ≤ rev ∧ rev < 0x3C))
  | .KV => decide ((0x01 ≤ rev ∧ rev < 0x41) ∨ (0x41 ≤ rev ∧ rev < 0x61)
      ∨ (0x61 ≤ rev ∧ rev < 0x71) ∨ (0x71 ≤ rev ∧ rev < 0x81)
      ∨ (0x81 ≤ rev ∧ rev < 0xA1) ∨ (0xA1 ≤ rev ∧ rev < 0xFF))
  | .VI => decide ((0x01 ≤ rev ∧ rev < 0x14) ∨ (0x14 ≤ rev ∧ rev < 0x28)
      ∨ (0x3C ≤ rev ∧ rev < 0x50) ∨ (0x50 ≤ rev ∧ rev < 0x5A)
      ∨ (0x5A ≤ rev ∧ rev < 0x64) ∨ (0x64 ≤ rev ∧ rev < 0x6E)
      ∨ (0x6E ≤ rev ∧ rev < 0xFF))
  | .AI => decide ((0x01 ≤ rev ∧ rev < 0x14) ∨ (0x14 ≤ rev ∧ rev < 0x28)
      ∨ (0x28 ≤ rev ∧ rev < 0x32) ∨ (0x32 ≤ rev ∧ rev < 0x3C)
      ∨ (0x3C ≤ rev ∧ rev < 0x46) ∨ (0x46 ≤ rev ∧ rev < 0xFF))
  | .RV => decide ((0x01 ≤ rev ∧ rev < 0x81) ∨ (0x81 ≤ rev ∧ rev < 0x90)
      ∨ (0x91 ≤ rev ∧ rev < 0xFF))
  | .NV => decide ((0x01 ≤ rev ∧ rev < 0x0A) ∨ (0x0A ≤ rev ∧ rev < 0x14)
      ∨ (0x14 ≤ rev ∧ rev < 0x28) ∨ (0x28 ≤ rev ∧ rev < 0x32)
      ∨ (0x32 ≤ rev ∧ rev < 0x3C) ∨ (0x3C ≤ rev ∧ rev < 0x46)
      ∨ (0x46 ≤ rev ∧ rev < 0x50) ∨ rev = 0x84)
  | .VGH => true
  | .GC_11_0_0 => decide ((0x01 ≤ rev ∧ rev < 0x10) ∨ (0x10 ≤ rev ∧ rev < 0x20)
      ∨ (0x20 ≤ rev ∧ rev < 0xFF))
  | .YC => true
  | .GC_11_0_1 => decide ((0x01 ≤ rev ∧ rev < 0x80) ∨ (0x80 ≤ rev ∧ rev < 0xC0)
      ∨ (0xC0 ≤ rev ∧ rev < 0xF0) ∨ (0xF0 ≤ rev ∧ rev < 0xFF))
  | .GC_10_3_6 => true
  | .GC_10_3_7 => true
  | .GC_11_5_0 => decide ((0x01 ≤ rev ∧ rev < 0x40) ∨ (0x40 ≤ rev ∧ rev < 0x50)
      ∨ (0x50 ≤ rev ∧ rev < 0x80) ∨ (0xC0 ≤ rev ∧ rev < 0xFF))
  | .GC_12_0_0 => decide ((0x40 ≤ rev ∧ rev < 0x50) ∨ (0x50 ≤ rev ∧ rev < 0xFF))
  | _ => false

/-- C1: `ASIC_NAME.get` is a total function on the family enumeration and
revisions 0..=255 (it is a Lean function, so it returns exactly one
`ASIC_NAME` value and cannot abort), and every family/revision pair not
covered by a listed revision interval resolves to `CHIP_UNKNOWN`. -/
theorem get_total_unlisted_unknown :
    ∀ f : FAMILY_NAME, ∀ r : Fin 256,
      coveredByListedInterval f r.val = false →
        ASIC_NAME.get f r.val = ASIC_NAME.CHIP_UNKNOWN := by decide

/-- Witness for C1: revision 0x14 of family SI lies in no listed interval
and classifies to `CHIP_UNKNOWN`. -/
theorem get_total_unlisted_unknown_witness :
    coveredByListedInterval FAMILY_NAME.SI 0x14 = false ∧
      ASIC_NAME.get FAMILY_NAME.SI 0x14 = ASIC_NAME.CHIP_UNKNOWN :=
  ⟨by decide, get_total_unlisted_unknown FAMILY_NAME.SI ⟨0x14, by decide⟩ (by decide)⟩

/-- C2: classification fixed points — `(VI, 0x5C)` is Polaris11,
`(SI, 0x06)` is Tahiti, `(SI, 0x16)` is Pitcairn. -/
theorem get_fixed_points :
    ASIC_NAME.get FAMILY_NAME.VI 0x5C = ASIC_NAME.CHIP_POLARIS11 ∧
    ASIC_NAME.get FAMILY_NAME.SI 0x06 = ASIC_NAME.CHIP_TAHITI ∧
    ASIC_NAME.get FAMILY_NAME.SI 0x16 = ASIC_NAME.CHIP_PITCAIRN := by decide

/-- C3: in the `ASIC_NAME` ordering used by the threshold predicates,
`CHIP_UNKNOWN` is the minimum, the generation anchors are strictly
increasing, every RDNA2 variant (`CHIP_NAVI21..CHIP_GFX1036`) is strictly
above every GFX9 variant (`CHIP_VEGA10..CHIP_GFX940`), and every GFX9
variant is strictly below `CHIP_NAVI10`. -/
theorem asic_order_generations :
    (∀ v : ASIC_NAME, ASIC_NAME.CHIP_UNKNOWN ≤ v) ∧
    (ASIC_NAME.CHIP_POLARIS10 < ASIC_NAME.CHIP_VEGAM ∧
     ASIC_NAME.CHIP_VEGAM < ASIC_NAME.CHIP_VEGA10 ∧
     ASIC_NAME.CHIP_VEGA10 < ASIC_NAME.CHIP_NAVI10 ∧
     ASIC_NAME.CHIP_NAVI10 < ASIC_NAME.CHIP_NAVI12 ∧
     ASIC_NAME.CHIP_NAVI12 < ASIC_NAME.CHIP_NAVI21 ∧
     ASIC_NAME.CHIP_NAVI21 < ASIC_NAME.CHIP_GFX1100 ∧
     ASIC_NAME.CHIP_GFX1100 < ASIC_NAME.CHIP_GFX1200) ∧
    (∀ v w : ASIC_NAME, ASIC_NAME.CHIP_NAVI21 ≤ v → v ≤ ASIC_NAME.CHIP_GFX1036 →
      ASIC_NAME.CHIP_VEGA10 ≤ w → w ≤ ASIC_NAME.CHIP_GFX940 → w < v) ∧
    (∀ w : ASIC_NAME, ASIC_NAME.CHIP_VEGA10 ≤ w → w ≤ ASIC_NAME.CHIP_GFX940 →
      w < ASIC_NAME.CHIP_NAVI10) := by
  refine ⟨by decide, by decide, ?_, ?_⟩
  · intro v w h1 h2 h3 h4
    have hx : ASIC_NAME.rank ASIC_NAME.CHIP_GFX940
        < ASIC_NAME.rank ASIC_NAME.CHIP_NAVI21 := by decide
    simp only [ASIC_NAME.le_def, ASIC_NAME.lt_def] at *
    omega
  · intro w h1 h2
    have hx : ASIC_NAME.rank ASIC_NAME.CHIP_GFX940
        < ASIC_NAME.rank ASIC_NAME.CHIP_NAVI10 := by decide
    simp only [ASIC_NAME.le_def, ASIC_NAME.lt_def] at *
    omega

/-- Witness for C3: the GFX9 variant `CHIP_GFX940` is strictly below the
RDNA2 variant `CHIP_NAVI21`. -/
theorem asic_order_generations_witness :
    ASIC_NAME.CHIP_GFX940 < ASIC_NAME.CHIP_NAVI21 :=
  asic_order_generations.2.2.1 ASIC_NAME.CHIP_NAVI21 ASIC_NAME.CHIP_GFX940
    (by decide) (by decide) (by decide) (by decide)

/-- C4 counterexample: `CHIP_VANGOGH` is none of the four variants the
claim lists as version-dependent, yet its LLVM processor name does depend
on `llvm_major_ver` (it is "gfx1033" at version 12 and "gfx1030" at
version 11), so the "every other variant is independent of the version"
part of the claim is false. -/
theorem llvm_name_vangogh_counterexample :
    ¬ (ASIC_NAME.get_llvm_processor_name ASIC_NAME.CHIP_VANGOGH 12
        = ASIC_NAME.get_llvm_processor_name ASIC_NAME.CHIP_VANGOGH 11) := by decide

/-- C4 amended: the versioned downgrades are exactly those of NAVI22,
NAVI23, VANGOGH (omitted by the claim), NAVI24 and REMBRANDT, with the
stated thresholds and strings; every other variant's LLVM processor name
is independent of the version argument. -/
theorem llvm_name_version_behavior :
    (∀ n : Nat, ASIC_NAME.get_llvm_processor_name ASIC_NAME.CHIP_NAVI22 n
      = if 12 ≤ n then "gfx1031" else "gfx1030") ∧
    (∀ n : Nat, ASIC_NAME.get_llvm_processor_name ASIC_NAME.CHIP_NAVI23 n
      = if 12 ≤ n then "gfx1032" else "gfx1030") ∧
    (∀ n : Nat, ASIC_NAME.get_llvm_processor_name ASIC_NAME.CHIP_VANGOGH n
      = if 12 ≤ n then "gfx1033" else "gfx1030") ∧
    (∀ n : Nat, ASIC_NAME.get_llvm_processor_name ASIC_NAME.CHIP_NAVI24 n
      = if 13 ≤ n then "gfx1034" else "gfx1030") ∧
    (∀ n : Nat, ASIC_NAME.get_llvm_processor_name ASIC_NAME.CHIP_REMBRANDT n
      = if 13 ≤ n then "gfx1035" else "gfx1030") ∧
    (∀ v : ASIC_NAME, v ≠ ASIC_NAME.CHIP_NAVI22 → v ≠ ASIC_NAME.CHIP_NAVI23 →
      v ≠ ASIC_NAME.CHIP_VANGOGH → v ≠ ASIC_NAME.CHIP_NAVI24 →
      v ≠ ASIC_NAME.CHIP_REMBRANDT →
      ∀ a b : Nat, v.get_llvm_processor_name a = v.get_llvm_processor_name b) := by
  refine ⟨fun n => rfl, fun n => rfl, fun n => rfl, fun n => rfl, fun n => rfl, ?_⟩
  intro v h1 h2 h3 h4 h5 a b
  cases v <;> first | rfl | simp_all

/-- Witness for C4's amended theorem: Tahiti's LLVM processor name is the
same at versions 1 and 99. -/
theorem llvm_name_version_behavior_witness :
    ASIC_NAME.get_llvm_processor_name ASIC_NAME.CHIP_TAHITI 1
      = ASIC_NAME.get_llvm_processor_name ASIC_NAME.CHIP_TAHITI 99 :=
  llvm_name_version_behavior.2.2.2.2.2 ASIC_NAME.CHIP_TAHITI
    (by decide) (by decide) (by decide) (by decide) (by decide) 1 99

/-- C5: the RB+ gate is two-stage — whenever `rbplus_allowed` holds,
`has_rbplus` holds, and indeed the allow-list stage alone never names a
variant on which the hardware-presence predicate is false. -/
theorem rbplus_two_stage_gate :
    (∀ v : ASIC_NAME, v.rbplus_allowed = true → v.has_rbplus = true) ∧
    (∀ v : ASIC_NAME, v.rbplus_allowlist = true → v.has_rbplus = true) := by
  constructor <;> decide

/-- Witness for C5: NAVI21 passes the RB+ gate and has RB+ hardware. -/
theorem rbplus_two_stage_gate_witness :
    ASIC_NAME.rbplus_allowed ASIC_NAME.CHIP_NAVI21 = true ∧
      ASIC_NAME.has_rbplus ASIC_NAME.CHIP_NAVI21 = true :=
  ⟨by decide, rbplus_two_stage_gate.1 ASIC_NAME.CHIP_NAVI21 (by decide)⟩

/-- C6: wavefront occupancy fixed points — 16 for NAVI21, 8 for
POLARIS10, and 10 for Tahiti, Hawaii, Vega10, Unknown and, in general,
every variant in neither the `≥ NAVI10` tier nor the
`POLARIS10..=VEGAM` band. -/
theorem max_wave64_fixed_points :
    ASIC_NAME.max_wave64_per_simd ASIC_NAME.CHIP_NAVI21 = 16 ∧
    ASIC_NAME.max_wave64_per_simd ASIC_NAME.CHIP_POLARIS10 = 8 ∧
    ASIC_NAME.max_wave64_per_simd ASIC_NAME.CHIP_TAHITI = 10 ∧
    ASIC_NAME.max_wave64_per_simd ASIC_NAME.CHIP_HAWAII = 10 ∧
    ASIC_NAME.max_wave64_per_simd ASIC_NAME.CHIP_VEGA10 = 10 ∧
    ASIC_NAME.max_wave64_per_simd ASIC_NAME.CHIP_UNKNOWN = 10 ∧
    (∀ v : ASIC_NAME, ¬ (ASIC_NAME.CHIP_NAVI10 ≤ v) →
      ¬ (ASIC_NAME.CHIP_POLARIS10 ≤ v ∧ v ≤ ASIC_NAME.CHIP_VEGAM) →
      v.max_wave64_per_simd = 10) := by decide

/-- Witness for C6: R300 is outside both tiers and gets the default 10. -/
theorem max_wave64_fixed_points_witness :
    ASIC_NAME.max_wave64_per_simd ASIC_NAME.CHIP_R300 = 10 :=
  max_wave64_fixed_points.2.2.2.2.2.2 ASIC_NAME.CHIP_R300 (by decide) (by decide)

/-- C7: L2 cache line size — 128 for Aldebaran and Navi10, 64 for Tahiti,
and in general 256 above GFX1200, 128 above NAVI10 or exactly on
Aldebaran, 64 otherwise. -/
theorem l2_cache_line_size_fixed_points :
    ASIC_NAME.l2_cache_line_size ASIC_NAME.CHIP_ALDEBARAN = 128 ∧
    ASIC_NAME.l2_cache_line_size ASIC_NAME.CHIP_NAVI10 = 128 ∧
    ASIC_NAME.l2_cache_line_size ASIC_NAME.CHIP_TAHITI = 64 ∧
    (∀ v : ASIC_NAME, v.l2_cache_line_size =
      if ASIC_NAME.CHIP_GFX1200 ≤ v then 256
      else if ASIC_NAME.CHIP_NAVI10 ≤ v ∨ v = ASIC_NAME.CHIP_ALDEBARAN then 128
      else 64) := by decide

/-- C8: GFX target names — "gfx1031" for NAVI22, and the empty string for
every variant without a table entry in `get_gfx_target_name`, among them
`CHIP_UNKNOWN` and every pre-GFX6 variant (everything up to `CHIP_ARUBA`,
e.g. `CHIP_R300`).  The final clause characterizes the no-table-entry set
exactly: the variants returning "" are precisely those up to `CHIP_ARUBA`,
`CHIP_GFX940`, `CHIP_GFX1103_R1X`, `CHIP_GFX1103_R2X`, and everything from
`CHIP_GFX1150` on (GFX1150-GFX1153, GFX1200, GFX1201). -/
theorem gfx_target_name_fixed_points :
    ASIC_NAME.get_gfx_target_name ASIC_NAME.CHIP_NAVI22 = "gfx1031" ∧
    ASIC_NAME.get_gfx_target_name ASIC_NAME.CHIP_UNKNOWN = "" ∧
    ASIC_NAME.get_gfx_target_name ASIC_NAME.CHIP_R300 = "" ∧
    (∀ v : ASIC_NAME, v ≤ ASIC_NAME.CHIP_ARUBA → v.get_gfx_target_name = "") ∧
    (∀ v : ASIC_NAME, v.get_gfx_target_name = "" ↔
      (v ≤ ASIC_NAME.CHIP_ARUBA ∨ v = ASIC_NAME.CHIP_GFX940
        ∨ v = ASIC_NAME.CHIP_GFX1103_R1X ∨ v = ASIC_NAME.CHIP_GFX1103_R2X
        ∨ ASIC_NAME.CHIP_GFX1150 ≤ v)) := by
  decide

/-- Witness for C8: the pre-GFX6 variant Cedar and the no-table-entry
variant GFX1150 both have the empty target name. -/
theorem gfx_target_name_fixed_points_witness :
    ASIC_NAME.get_gfx_target_name ASIC_NAME.CHIP_CEDAR = "" ∧
      ASIC_NAME.get_gfx_target_name ASIC_NAME.CHIP_GFX1150 = "" :=
  ⟨gfx_target_name_fixed_points.2.2.2.1 ASIC_NAME.CHIP_CEDAR (by decide),
   (gfx_target_name_fixed_points.2.2.2.2 ASIC_NAME.CHIP_GFX1150).mpr (by decide)⟩

/-- C9: every capability query applied to `CHIP_UNKNOWN` returns its
defined fall-through default rather than failing. -/
theorem unknown_sentinel_defaults :
    ASIC_NAME.get_gfx_target_name ASIC_NAME.CHIP_UNKNOWN = "" ∧
    ASIC_NAME.rbplus_allowed ASIC_NAME.CHIP_UNKNOWN = false ∧
    ASIC_NAME.has_rbplus ASIC_NAME.CHIP_UNKNOWN = false ∧
    ASIC_NAME.has_packed_math_16bit ASIC_NAME.CHIP_UNKNOWN = false ∧
    ASIC_NAME.has_accelerated_dot_product ASIC_NAME.CHIP_UNKNOWN = false ∧
    ASIC_NAME.l3_cache_size_mb_per_channel ASIC_NAME.CHIP_UNKNOWN = 0 ∧
    ASIC_NAME.max_wave64_per_simd ASIC_NAME.CHIP_UNKNOWN = 10 ∧
    ASIC_NAME.l2_cache_size_per_block ASIC_NAME.CHIP_UNKNOWN = 262144 ∧
    ASIC_NAME.l1_cache_size ASIC_NAME.CHIP_UNKNOWN = 16384 ∧
    ASIC_NAME.get_llvm_processor_name ASIC_NAME.CHIP_UNKNOWN 0 = "" ∧
    ASIC_NAME.gl1_cache_size ASIC_NAME.CHIP_UNKNOWN = 0 ∧
    ASIC_NAME.l2_cache_line_size ASIC_NAME.CHIP_UNKNOWN = 64 ∧
    ASIC_NAME.num_simd_per_cu ASIC_NAME.CHIP_UNKNOWN = 4 ∧
    ASIC_NAME.cu_group ASIC_NAME.CHIP_UNKNOWN = 1 := by decide

/-- C10: the half-open revision intervals leave uncovered endpoint gaps
that classify to `CHIP_UNKNOWN` even though their neighbors classify to
named chips: SI 0x14 (between Tahiti and Pitcairn), SI 0x28, RV 0x90,
SI 0xFF (the topmost interval excludes 0xFF), and every VI revision in
[0x28, 0x3C). -/
theorem get_interval_gaps :
    ASIC_NAME.get FAMILY_NAME.SI 0x14 = ASIC_NAME.CHIP_UNKNOWN ∧
    ASIC_NAME.get FAMILY_NAME.SI 0x13 = ASIC_NAME.CHIP_TAHITI ∧
    ASIC_NAME.get FAMILY_NAME.SI 0x15 = ASIC_NAME.CHIP_PITCAIRN ∧
    ASIC_NAME.get FAMILY_NAME.SI 0x28 = ASIC_NAME.CHIP_UNKNOWN ∧
    ASIC_NAME.get FAMILY_NAME.RV 0x90 = ASIC_NAME.CHIP_UNKNOWN ∧
    ASIC_NAME.get FAMILY_NAME.SI 0xFF = ASIC_NAME.CHIP_UNKNOWN ∧
    ASIC_NAME.get FAMILY_NAME.SI 0xFE = ASIC_NAME.CHIP_HAINAN ∧
    (∀ r : Nat, 0x28 ≤ r → r < 0x3C →
      ASIC_NAME.get FAMILY_NAME.VI r = ASIC_NAME.CHIP_UNKNOWN) := by
  refine ⟨by decide, by decide, by decide, by decide, by decide, by decide,
    by decide, ?_⟩
  intro r h1 h2
  interval_cases r <;> decide

/-- Witness for C10: VI revision 0x30 lies in the gap and is unknown. -/
theorem get_interval_gaps_witness :
    ASIC_NAME.get FAMILY_NAME.VI 0x30 = ASIC_NAME.CHIP_UNKNOWN :=
  get_interval_gaps.2.2.2.2.2.2.2 0x30 (by decide) (by decide)
